import Mathlib

/-!
A shallow embedding of the parking reservation/capacity engine of the
tapparkuser backend (Express routes over a MySQL store).  Tables become
lists of records, SQL statements become list operations, and each route
becomes a function from the database state (plus request parameters) to a
typed outcome paired with the successor state.  `NOW()` and generated
UUID keys enter as explicit parameters.
-/

namespace TapPark

/-- JS `x || 0` applied to a possibly-NULL numeric column
(`section.parked_count || 0`): NULL and 0 both yield 0. -/
def jsOr0 (x : Option Int) : Int := x.getD 0

/-- JS `String.prototype.toLowerCase()` (character-level model). -/
def jsToLower (s : String) : String := ⟨s.data.map Char.toLower⟩

/-- JS `String.prototype.trim()` (strip whitespace at both ends). -/
def jsTrim (s : String) : String :=
  ⟨((s.data.dropWhile Char.isWhitespace).reverse.dropWhile Char.isWhitespace).reverse⟩

/-- JS `s.startsWith(pre)`. -/
def strStartsWith (s pre : String) : Bool := pre.data.isPrefixOf s.data

/-- Row of the `users` table (columns the embedded routes read). -/
structure PUser where
  user_id : Nat
  first_name : String
  last_name : String
  email : String
deriving Repr, DecidableEq

/-- Row of the `vehicles` table. `brand`/`color` are nullable. -/
structure Vehicle where
  vehicle_id : Nat
  user_id : Nat
  vehicle_type : String
  plate_number : String
  brand : Option String
  color : Option String
deriving Repr, DecidableEq

/-- Row of the `parking_area` table. -/
structure Area where
  parking_area_id : Nat
  parking_area_name : String
  location : String
  status : String
deriving Repr, DecidableEq

/-- Row of the `parking_section` table.  The counter columns are nullable
(the routes read them through `|| 0`). -/
structure PSection where
  parking_section_id : Nat
  parking_area_id : Nat
  section_name : String
  vehicle_type : String
  section_mode : String
  capacity : Option Int
  parked_count : Option Int
  reserved_count : Option Int
  status : String
deriving Repr, DecidableEq

/-- Row of the `parking_spot` table (discrete spots). -/
structure PSpot where
  parking_spot_id : Nat
  parking_section_id : Nat
  spot_number : String
  spot_type : String
  status : String
deriving Repr, DecidableEq

/-- Row of the `reservations` table.  `parking_spots_id = 0` is the
sentinel for capacity-section bookings; `qr` is the QR column (the
barcode image data URL) and `qr_key` the opaque token. -/
structure Reservation where
  reservation_id : Nat
  user_id : Nat
  vehicle_id : Option Nat
  parking_spots_id : Nat
  parking_section_id : Option Nat
  spot_number : Option String
  booking_status : String
  time_stamp : Nat
  start_time : Option Nat
  end_time : Option Nat
  qr : String
  qr_key : Option String
deriving Repr, DecidableEq

/-- The database state shared by all routes, with AUTO_INCREMENT
counters for the three tables the routes insert into. -/
structure Db where
  users : List PUser
  vehicles : List Vehicle
  areas : List Area
  sections : List PSection
  spots : List PSpot
  reservations : List Reservation
  nextReservationId : Nat
  nextUserId : Nat
  nextVehicleId : Nat
deriving Repr, DecidableEq

/-- SQL `UPDATE ... SET (f) WHERE p`: rewrite every matching row. -/
def updWhere (p : α → Bool) (f : α → α) (l : List α) : List α :=
  l.map fun a => if p a then f a else a

/-- Number of rows a conditional `UPDATE ... WHERE p` affects. -/
def affected (p : α → Bool) (l : List α) : Nat := (l.filter p).length

/-! ## GET /areas/:areaId/capacity-status -/

/-- One element of the capacity-status response (the `utilizationRate`
string, a formatted float, is omitted). -/
structure CapacityEntry where
  sectionId : Nat
  totalCapacity : Int
  availableCapacity : Int
  parkedCount : Int
  reservedCount : Int
  totalUsed : Int
  statusOut : String
  isUserBooked : Bool
deriving Repr, DecidableEq

/-- The `is_user_booked` EXISTS subquery: a live (`reserved`/`active`)
reservation of this user whose `parking_section_id` equals the section. -/
def isUserBookedIn (db : Db) (userId sid : Nat) : Bool :=
  db.reservations.any fun r =>
    decide (r.parking_section_id = some sid ∧ r.user_id = userId ∧
      (r.booking_status = "reserved" ∨ r.booking_status = "active"))

/-- The per-section mapping of the capacity-status handler. -/
def capacityEntryOf (db : Db) (userId : Nat) (s : PSection) : CapacityEntry :=
  let totalCapacity := jsOr0 s.capacity
  let parkedCount := jsOr0 s.parked_count
  let reservedCount := jsOr0 s.reserved_count
  let totalUsed := parkedCount + reservedCount
  let availableCapacity := max 0 (totalCapacity - totalUsed)
  { sectionId := s.parking_section_id
    totalCapacity := totalCapacity
    availableCapacity := availableCapacity
    parkedCount := parkedCount
    reservedCount := reservedCount
    totalUsed := totalUsed
    statusOut := if s.status = "" then "available" else s.status
    isUserBooked := isUserBookedIn db userId s.parking_section_id }

/-- GET /areas/:areaId/capacity-status: motorcycle sections of the area,
each mapped through `capacityEntryOf`. -/
def capacityStatus (db : Db) (areaId userId : Nat) : List CapacityEntry :=
  (db.sections.filter fun s =>
      decide (s.parking_area_id = areaId ∧ s.vehicle_type = "motorcycle")).map
    (capacityEntryOf db userId)

/-! ## POST /sections/:sectionId/reserve -/

inductive SectionReserveOutcome
  | sectionNotFound
  | noCapacity
  | ok (reservationId : Nat) (remainingCapacity : Int)
deriving Repr, DecidableEq

/-- The `CAP-${Date.now()}-${userId}` key written into QR and qr_key. -/
def capKey (now userId : Nat) : String :=
  "CAP-" ++ toString now ++ "-" ++ toString userId

/-- POST /sections/:sectionId/reserve: re-read the section, compute the
clamped availability, refuse when none is left, otherwise insert a
`reserved` reservation (whose `parking_spots_id` holds the section id)
and increment `reserved_count`, all in one transaction. -/
def sectionReserve (db : Db) (sectionId userId now : Nat) :
    SectionReserveOutcome × Db :=
  match db.sections.find? (fun s =>
      decide (s.parking_section_id = sectionId ∧ s.vehicle_type = "motorcycle")) with
  | none => (.sectionNotFound, db)
  | some s =>
    let totalUsed := jsOr0 s.parked_count + jsOr0 s.reserved_count
    let availableCapacity := max 0 (jsOr0 s.capacity - totalUsed)
    if availableCapacity ≤ 0 then (.noCapacity, db)
    else
      let newRes : Reservation :=
        { reservation_id := db.nextReservationId
          user_id := userId
          vehicle_id := none
          parking_spots_id := sectionId
          parking_section_id := none
          spot_number := none
          booking_status := "reserved"
          time_stamp := now
          start_time := some now
          end_time := some (now + 24)
          qr := capKey now userId
          qr_key := some (capKey now userId) }
      (.ok db.nextReservationId (availableCapacity - 1),
        { db with
          reservations := db.reservations ++ [newRes]
          nextReservationId := db.nextReservationId + 1
          sections := updWhere (fun t => decide (t.parking_section_id = sectionId))
            (fun t => { t with reserved_count := t.reserved_count.map (· + 1) })
            db.sections })

/-! ## POST /sections/:sectionId/spots/:spotNumber/guest-assign -/

inductive GuestAssignOutcome
  | missingParams
  | sectionNotFound
  | spotOccupied
  | ok (reservationId : Nat)
deriving Repr, DecidableEq

/-- POST .../guest-assign: attendant walk-up booking.  Checks only that
no `active` reservation holds the requested pseudo-spot label, then
inserts a guest user, a guest vehicle and an `active` reservation, and
increments `parked_count` — there is no capacity check on this path. -/
def guestAssign (db : Db) (sectionId : Nat) (spotNumber guestName plateNumber : String)
    (brand color : Option String) (userId now : Nat) : GuestAssignOutcome × Db :=
  if userId = 0 ∨ sectionId = 0 ∨ spotNumber = "" ∨ guestName = "" ∨ plateNumber = ""
  then (.missingParams, db)
  else
    match db.sections.find? (fun s =>
        decide (s.parking_section_id = sectionId ∧ s.vehicle_type = "motorcycle")) with
    | none => (.sectionNotFound, db)
    | some _ =>
      if db.reservations.any (fun r =>
          decide (r.parking_section_id = some sectionId ∧
            r.spot_number = some spotNumber ∧ r.booking_status = "active"))
      then (.spotOccupied, db)
      else
        let guestUserId := db.nextUserId
        let guestVehicleId := db.nextVehicleId
        let rid := db.nextReservationId
        let guest : PUser :=
          { user_id := guestUserId
            first_name := guestName
            last_name := "Guest"
            email := "guest_" ++ toString now ++ "@tappark.guest" }
        let guestVehicle : Vehicle :=
          { vehicle_id := guestVehicleId
            user_id := guestUserId
            vehicle_type := "motorcycle"
            plate_number := plateNumber
            brand := brand
            color := color }
        let newRes : Reservation :=
          { reservation_id := rid
            user_id := guestUserId
            vehicle_id := some guestVehicleId
            parking_spots_id := 0
            parking_section_id := some sectionId
            spot_number := some spotNumber
            booking_status := "active"
            time_stamp := now
            start_time := some now
            end_time := none
            qr := ""
            qr_key := none }
        (.ok rid,
          { db with
            users := db.users ++ [guest]
            vehicles := db.vehicles ++ [guestVehicle]
            reservations := db.reservations ++ [newRes]
            nextReservationId := rid + 1
            nextUserId := guestUserId + 1
            nextVehicleId := guestVehicleId + 1
            sections := updWhere (fun t => decide (t.parking_section_id = sectionId))
              (fun t => { t with parked_count := t.parked_count.map (· + 1) })
              db.sections })

/-- The section occupancy invariant, reading NULL counters as the routes
do (`|| 0`). -/
def sectionInv (s : PSection) : Prop :=
  jsOr0 s.parked_count + jsOr0 s.reserved_count ≤ jsOr0 s.capacity

instance : DecidablePred sectionInv := fun s => by
  unfold sectionInv; infer_instance

/-! ## POST /sections/:sectionId/confirm-parking -/

inductive ConfirmOutcome
  | notFoundOrAlreadyConfirmed
  | confirmed
deriving Repr, DecidableEq

/-- The conditional-update predicate of confirm-parking:
`WHERE reservation_id = ? AND user_id = ? AND booking_status = 'reserved'`. -/
def confirmHit (reservationId userId : Nat) (r : Reservation) : Bool :=
  decide (r.reservation_id = reservationId ∧ r.user_id = userId ∧
    r.booking_status = "reserved")

/-- POST /sections/:sectionId/confirm-parking: one transaction that
conditionally flips the reservation `reserved → active` (setting
`start_time`) and, only when a row was affected, moves one unit of the
URL section from `reserved_count` to `parked_count`; zero affected rows
roll back with nothing changed. -/
def confirmParking (db : Db) (sectionId userId reservationId now : Nat) :
    ConfirmOutcome × Db :=
  if affected (confirmHit reservationId userId) db.reservations = 0 then
    (.notFoundOrAlreadyConfirmed, db)
  else
    (.confirmed,
      { db with
        reservations := updWhere (confirmHit reservationId userId)
          (fun r => { r with booking_status := "active", start_time := some now })
          db.reservations
        sections := updWhere (fun t => decide (t.parking_section_id = sectionId))
          (fun t => { t with
            reserved_count := t.reserved_count.map (· - 1)
            parked_count := t.parked_count.map (· + 1) })
          db.sections })

/-! ## POST /sections/:sectionId/end-reservation -/

inductive EndReservationOutcome
  | noActiveReservation
  | ended
deriving Repr, DecidableEq

/-- The conditional-update predicate of end-reservation:
`WHERE parking_spots_id = ? AND user_id = ? AND booking_status = 'active'`. -/
def endResHit (sectionId userId : Nat) (r : Reservation) : Bool :=
  decide (r.parking_spots_id = sectionId ∧ r.user_id = userId ∧
    r.booking_status = "active")

/-- POST /sections/:sectionId/end-reservation: conditionally completes
the user's active capacity reservation and decrements `parked_count`
(with no floor at zero); zero affected rows roll back unchanged. -/
def endReservation (db : Db) (sectionId userId now : Nat) :
    EndReservationOutcome × Db :=
  if affected (endResHit sectionId userId) db.reservations = 0 then
    (.noActiveReservation, db)
  else
    (.ended,
      { db with
        reservations := updWhere (endResHit sectionId userId)
          (fun r => { r with booking_status := "completed", end_time := some now })
          db.reservations
        sections := updWhere (fun t => decide (t.parking_section_id = sectionId))
          (fun t => { t with parked_count := t.parked_count.map (· - 1) })
          db.sections })

/-! ## POST /sections/:sectionId/spots/:spotNumber/release -/

inductive ReleaseOutcome
  | noActiveReservation
  | released
deriving Repr, DecidableEq

/-- The conditional-update predicate of the release route:
`WHERE parking_section_id = ? AND spot_number = ? AND user_id = ?
AND booking_status = 'active'`. -/
def releaseHit (sectionId : Nat) (spotNumber : String) (userId : Nat)
    (r : Reservation) : Bool :=
  decide (r.parking_section_id = some sectionId ∧ r.spot_number = some spotNumber ∧
    r.user_id = userId ∧ r.booking_status = "active")

/-- POST .../release: completes the user's *active* reservation on the
pseudo-spot and decrements `parked_count`; zero affected rows return an
error with nothing changed. -/
def releaseSpot (db : Db) (sectionId : Nat) (spotNumber : String) (userId now : Nat) :
    ReleaseOutcome × Db :=
  if affected (releaseHit sectionId spotNumber userId) db.reservations = 0 then
    (.noActiveReservation, db)
  else
    (.released,
      { db with
        reservations := updWhere (releaseHit sectionId spotNumber userId)
          (fun r => { r with booking_status := "completed", end_time := some now })
          db.reservations
        sections := updWhere (fun t => decide (t.parking_section_id = sectionId))
          (fun t => { t with parked_count := t.parked_count.map (· - 1) })
          db.sections })

/-! ## PUT /end-session/:reservationId -/

inductive EndSessionOutcome
  | notFound
  | ended (reservationId : Nat)
deriving Repr, DecidableEq

/-- PUT /end-session/:reservationId: after an ownership pre-read, the
status update is conditioned on the reservation id alone
(`UPDATE reservations ... WHERE reservation_id = ?` with no expected
prior status), and the recorded spot is set `available` unconditionally. -/
def endSession (db : Db) (reservationId userId now : Nat) :
    EndSessionOutcome × Db :=
  match db.reservations.find? (fun r =>
      decide (r.reservation_id = reservationId ∧ r.user_id = userId)) with
  | none => (.notFound, db)
  | some rdata =>
    (.ended reservationId,
      { db with
        reservations := updWhere (fun r => decide (r.reservation_id = reservationId))
          (fun r => { r with booking_status := "completed", end_time := some now })
          db.reservations
        spots := updWhere (fun p => decide (p.parking_spot_id = rdata.parking_spots_id))
          (fun p => { p with status := "available" })
          db.spots })

/-! ## POST /book (discrete spot path and motorcycle section path) -/

/-- `JSON.stringify({ qr_key: qrKey })` — the only data placed in the
barcode. -/
def qrPayload (k : String) : String :=
  "\x7b\"qr_key\":\"" ++ k ++ "\"\x7d"

/-- `QRCode.toDataURL(payload)`: the barcode image is a derived artifact
determined by (and carrying exactly) its payload string. -/
def qrToDataURL (payload : String) : String :=
  "data:image/png;base64," ++ payload

/-- Vehicle-class → spot-type mapping (bicycle and ebike share "bike"),
applied case-insensitively. -/
def expectedSpotTypeOf (vehicleType : String) : String :=
  if jsToLower vehicleType = "bicycle" then "bike"
  else if jsToLower vehicleType = "ebike" then "bike"
  else jsToLower vehicleType

/-- `UPDATE parking_spot SET status = 'reserved'
WHERE parking_spot_id = ? AND status = 'available'` — the conditional
update guarding against a lost race; returns (affected rows, new table). -/
def reserveSpotIfAvailable (spots : List PSpot) (spotId : Nat) :
    Nat × List PSpot :=
  let hit := fun (p : PSpot) => decide (p.parking_spot_id = spotId ∧ p.status = "available")
  (affected hit spots, updWhere hit (fun p => { p with status := "reserved" }) spots)

inductive BookOutcome
  | missingFields
  | vehicleNotFound
  | areaNotFound
  | spotNotFound
  | spotUnavailable
  | vehicleTypeMismatch (vehicleType spotType expectedSpotType : String)
  | spotAlreadyBooked
  | sectionNotAvailable
  | okSpot (reservationId : Nat) (qrKey : String)
  | okSection (reservationId : Nat) (qrKey : String)
deriving Repr, DecidableEq

/-- SQL `(capacity - parked_count - reserved_count) > 0`: NULL in any
column makes the comparison NULL, i.e. not satisfied. -/
def sqlAvailPos (c p r : Option Int) : Bool :=
  match c, p, r with
  | some cv, some pv, some rv => decide (0 < cv - pv - rv)
  | _, _, _ => false

/-- Helper `bookMotorcycleSection`: locks and re-reads the recommended
section with its availability predicate in the WHERE clause, inserts a
`reserved` reservation whose display label is
`{sectionName}-{reserved_count + 1}` (JS `null + 1 = 1`), increments
`reserved_count`, then writes the QR image data URL. -/
def bookMotorcycleSection (db : Db) (userId vehicleId spotId areaId : Nat)
    (qrKey : String) (now : Nat) : BookOutcome × Db :=
  match db.sections.find? (fun s =>
      decide (s.parking_section_id = spotId ∧ s.parking_area_id = areaId ∧
        s.vehicle_type = "motorcycle" ∧ s.section_mode = "capacity_only") &&
      sqlAvailPos s.capacity s.parked_count s.reserved_count &&
      decide (s.status ≠ "unavailable")) with
  | none => (.sectionNotAvailable, db)
  | some s =>
    let rid := db.nextReservationId
    let spotNumber := s.section_name ++ "-" ++ toString (jsOr0 s.reserved_count + 1)
    let newRes : Reservation :=
      { reservation_id := rid
        user_id := userId
        vehicle_id := some vehicleId
        parking_spots_id := 0
        parking_section_id := some s.parking_section_id
        spot_number := some spotNumber
        booking_status := "reserved"
        time_stamp := now
        start_time := none
        end_time := none
        qr := qrKey
        qr_key := some qrKey }
    (.okSection rid qrKey,
      { db with
        reservations := updWhere (fun r => decide (r.reservation_id = rid))
          (fun r => { r with qr := qrToDataURL (qrPayload qrKey) })
          (db.reservations ++ [newRes])
        nextReservationId := rid + 1
        sections := updWhere
          (fun t => decide (t.parking_section_id = s.parking_section_id))
          (fun t => { t with reserved_count := t.reserved_count.map (· + 1) })
          db.sections })

/-- The spot-details re-read of /book: the spot joined with its section,
yielding the display label `{sectionName}-{spotNumber}` and the section
id (or nothing when the join is empty). -/
def spotDetailsOf (db : Db) (spotId : Nat) : Option (String × Nat) :=
  (db.spots.find? (fun p => decide (p.parking_spot_id = spotId))).bind fun p =>
    (db.sections.find? (fun t =>
        decide (t.parking_section_id = p.parking_section_id))).map fun t =>
      (t.section_name ++ "-" ++ p.spot_number, p.parking_section_id)

/-- The reservation row the discrete-spot path INSERTs (QR column empty
until the follow-up UPDATE writes the barcode image). -/
def newSpotReservation (db : Db) (userId vehicleId spotId : Nat) (qrKey : String)
    (now : Nat) : Reservation :=
  { reservation_id := db.nextReservationId
    user_id := userId
    vehicle_id := some vehicleId
    parking_spots_id := spotId
    parking_section_id := (spotDetailsOf db spotId).map (·.2)
    spot_number := (spotDetailsOf db spotId).map (·.1)
    booking_status := "reserved"
    time_stamp := now
    start_time := none
    end_time := none
    qr := ""
    qr_key := some qrKey }

/-- The under-lock commit phase of /book for a discrete spot: the
conditional update (available → reserved), whose zero-row outcome is the
lost-race rollback, then the reservation insert and the QR image write. -/
def bookCommit (db : Db) (userId vehicleId spotId : Nat) (qrKey : String)
    (now : Nat) : BookOutcome × Db :=
  if (reserveSpotIfAvailable db.spots spotId).1 = 0 then (.spotAlreadyBooked, db)
  else
    (.okSpot db.nextReservationId qrKey,
      { db with
        spots := (reserveSpotIfAvailable db.spots spotId).2
        reservations := updWhere
          (fun r => decide (r.reservation_id = db.nextReservationId))
          (fun r => { r with qr := qrToDataURL (qrPayload qrKey) })
          (db.reservations ++ [newSpotReservation db userId vehicleId spotId qrKey now])
        nextReservationId := db.nextReservationId + 1 })

/-- POST /book: field validation, vehicle ownership, motorcycle
redirect, area lookup, then (under the row lock) availability re-check,
vehicle/spot type compatibility, and the commit phase. -/
def book (db : Db) (userId vehicleId spotId areaId : Nat) (qrKey : String)
    (now : Nat) : BookOutcome × Db :=
  if vehicleId = 0 ∨ spotId = 0 ∨ areaId = 0 then (.missingFields, db)
  else if (db.vehicles.find? (fun v =>
      decide (v.vehicle_id = vehicleId ∧ v.user_id = userId))).isNone then
    (.vehicleNotFound, db)
  else
    match db.vehicles.find? (fun v => decide (v.vehicle_id = vehicleId)) with
    | none => (.vehicleNotFound, db)
    | some vehicle =>
      if jsToLower vehicle.vehicle_type = "motorcycle" then
        bookMotorcycleSection db userId vehicleId spotId areaId qrKey now
      else if (db.areas.find? (fun a => decide (a.parking_area_id = areaId))).isNone then
        (.areaNotFound, db)
      else
        match db.spots.find? (fun p => decide (p.parking_spot_id = spotId)) with
        | none => (.spotNotFound, db)
        | some spot =>
          if spot.status ≠ "available" then (.spotUnavailable, db)
          else
            if expectedSpotTypeOf vehicle.vehicle_type ≠ jsToLower spot.spot_type then
              (.vehicleTypeMismatch vehicle.vehicle_type spot.spot_type
                (expectedSpotTypeOf vehicle.vehicle_type), db)
            else
              bookCommit db userId vehicleId spotId qrKey now

/-! ## POST /sections/:sectionId/spots/:spotNumber/assign -/

inductive AssignOutcome
  | missingParams
  | sectionNotFound
  | vehicleNotFound
  | activeSessionExists
  | spotTaken
  | assigned (reservationId : Nat) (qrKey : String)
deriving Repr, DecidableEq

/-- POST .../assign: self-service booking of a pseudo-spot.  The
duplicate-session pre-check looks only for a reservation with
`booking_status = 'active'`; on success it inserts a `reserved`
reservation, writes the QR image, and increments `parked_count`. -/
def assignSpot (db : Db) (sectionId : Nat) (spotNumber : String)
    (vehicleId userId : Nat) (qrKey : String) (now : Nat) : AssignOutcome × Db :=
  if userId = 0 ∨ sectionId = 0 ∨ spotNumber = "" ∨ vehicleId = 0 then
    (.missingParams, db)
  else
    match db.sections.find? (fun s =>
        decide (s.parking_section_id = sectionId ∧ s.vehicle_type = "motorcycle")) with
    | none => (.sectionNotFound, db)
    | some _ =>
      if (db.vehicles.find? (fun v =>
          decide (v.vehicle_id = vehicleId ∧ v.user_id = userId))).isNone then
        (.vehicleNotFound, db)
      else if db.reservations.any (fun r =>
          decide (r.user_id = userId ∧ r.booking_status = "active")) then
        (.activeSessionExists, db)
      else if db.reservations.any (fun r =>
          decide (r.parking_section_id = some sectionId ∧
            r.spot_number = some spotNumber ∧
            (r.booking_status = "reserved" ∨ r.booking_status = "active"))) then
        (.spotTaken, db)
      else
        let rid := db.nextReservationId
        let newRes : Reservation :=
          { reservation_id := rid
            user_id := userId
            vehicle_id := some vehicleId
            parking_spots_id := 0
            parking_section_id := some sectionId
            spot_number := some spotNumber
            booking_status := "reserved"
            time_stamp := now
            start_time := none
            end_time := none
            qr := ""
            qr_key := some qrKey }
        (.assigned rid qrKey,
          { db with
            reservations := updWhere (fun r => decide (r.reservation_id = rid))
              (fun r => { r with qr := qrToDataURL (qrPayload qrKey) })
              (db.reservations ++ [newRes])
            nextReservationId := rid + 1
            sections := updWhere (fun t => decide (t.parking_section_id = sectionId))
              (fun t => { t with parked_count := t.parked_count.map (· + 1) })
              db.sections })

/-! ## GET /booking/:reservationId -/

/-- What `typeof JSON.parse(s)` observes, or that the parse threw. -/
inductive JsParseKind
  | throwErr
  | objectVal
  | otherVal
deriving Repr, DecidableEq

/-- The defensive qr_key cleanup of GET /booking/:reservationId: a falsy
key is left alone, otherwise it is trimmed and, when it looks like JSON
(starts with a brace or bracket), discarded unless the parse yields a
non-object. -/
def sanitizeQrKey (jsonKindOf : String → JsParseKind) (raw : Option String) :
    Option String :=
  match raw with
  | none => none
  | some k =>
    if k = "" then some k
    else
      if strStartsWith (jsTrim k) "\x7b" ∨ strStartsWith (jsTrim k) "[" then
        match jsonKindOf (jsTrim k) with
        | .throwErr => none
        | .objectVal => none
        | .otherVal => some (jsTrim k)
      else some (jsTrim k)

/-- JS `qrKey || null` applied when building the response. -/
def jsOrNullStr (x : Option String) : Option String :=
  match x with
  | some s => if s = "" then none else some s
  | none => none

/-- The response fields of GET /booking/:reservationId that the claims
touch (occupant, vehicle, area and penalty detail omitted). -/
structure BookingDetails where
  reservationId : Nat
  bookingStatus : String
  spotNumberOut : Option String
  qrCode : String
  qrKeyOut : Option String
deriving Repr, DecidableEq

inductive GetBookingOutcome
  | notFound
  | motorcycleSectionNotFound
  | found (b : BookingDetails)
deriving Repr, DecidableEq

/-- The INNER JOIN chain of the regular-spot booking-details query:
users, vehicles, parking_spot, parking_section, parking_area must all
resolve or the query returns no row. -/
def joinRegularBooking (db : Db) (r : Reservation) : Option BookingDetails :=
  (db.users.find? (fun u => decide (u.user_id = r.user_id))).bind fun _ =>
    (r.vehicle_id.bind fun vid =>
        db.vehicles.find? (fun v => decide (v.vehicle_id = vid))).bind fun _ =>
      (db.spots.find? (fun p => decide (p.parking_spot_id = r.parking_spots_id))).bind
        fun p =>
          (db.sections.find? (fun t =>
              decide (t.parking_section_id = p.parking_section_id))).bind fun t =>
            (db.areas.find? (fun a =>
                decide (a.parking_area_id = t.parking_area_id))).map fun _ =>
              { reservationId := r.reservation_id
                bookingStatus := r.booking_status
                spotNumberOut := some p.spot_number
                qrCode := r.qr
                qrKeyOut := r.qr_key }

/-- The INNER JOIN chain of the capacity-section booking-details query
(reservation joined to its `parking_section_id` and its area). -/
def joinSectionBooking (db : Db) (r : Reservation) : Option BookingDetails :=
  (db.users.find? (fun u => decide (u.user_id = r.user_id))).bind fun _ =>
    (r.vehicle_id.bind fun vid =>
        db.vehicles.find? (fun v => decide (v.vehicle_id = vid))).bind fun _ =>
      (r.parking_section_id.bind fun sid =>
          db.sections.find? (fun t => decide (t.parking_section_id = sid))).bind
        fun t =>
          (db.areas.find? (fun a =>
              decide (a.parking_area_id = t.parking_area_id))).map fun _ =>
            { reservationId := r.reservation_id
              bookingStatus := r.booking_status
              spotNumberOut := r.spot_number
              qrCode := r.qr
              qrKeyOut := r.qr_key }

/-- The legacy query for a motorcycle reservation whose
`parking_spots_id` itself names a section (spot_number synthesized as
`M1-{name}-1`). -/
def joinLegacySectionBooking (db : Db) (r : Reservation) : Option BookingDetails :=
  (db.users.find? (fun u => decide (u.user_id = r.user_id))).bind fun _ =>
    (r.vehicle_id.bind fun vid =>
        db.vehicles.find? (fun v => decide (v.vehicle_id = vid))).bind fun _ =>
      (db.sections.find? (fun t =>
          decide (t.parking_section_id = r.parking_spots_id))).bind fun t =>
        (db.areas.find? (fun a =>
            decide (a.parking_area_id = t.parking_area_id))).map fun _ =>
          { reservationId := r.reservation_id
            bookingStatus := r.booking_status
            spotNumberOut := some ("M1-" ++ t.section_name ++ "-1")
            qrCode := r.qr
            qrKeyOut := r.qr_key }

/-- An empty join result is a 404; a row gets its qr_key sanitized and
`|| null` applied in the response. -/
def sanitizedFound (jsonKindOf : String → JsParseKind)
    (details : Option BookingDetails) : GetBookingOutcome :=
  match details with
  | none => .notFound
  | some b =>
    .found { b with qrKeyOut := jsOrNullStr (sanitizeQrKey jsonKindOf b.qrKeyOut) }

/-- GET /booking/:reservationId: resolve the caller's reservation,
branch on vehicle type and the capacity sentinel, run the matching join,
then sanitize the stored qr_key and apply `|| null` in the response. -/
def getBooking (db : Db) (reservationId userId : Nat)
    (jsonKindOf : String → JsParseKind) : GetBookingOutcome :=
  match db.reservations.find? (fun r =>
      decide (r.reservation_id = reservationId ∧ r.user_id = userId)) with
  | none => .notFound
  | some r =>
    let vehicleType := (r.vehicle_id.bind fun vid =>
      db.vehicles.find? (fun v => decide (v.vehicle_id = vid))).map (·.vehicle_type)
    if vehicleType = some "motorcycle" then
      if r.parking_spots_id = 0 then
        sanitizedFound jsonKindOf (joinSectionBooking db r)
      else
        match db.sections.find? (fun t =>
            decide (t.parking_section_id = r.parking_spots_id)) with
        | none => .motorcycleSectionNotFound
        | some _ => sanitizedFound jsonKindOf (joinLegacySectionBooking db r)
    else
      sanitizedFound jsonKindOf (joinRegularBooking db r)

/-! ## GET /sections/:sectionId/spots (virtual spot synthesizer) -/

/-- A row of the reservations query of the spots route (reservation
LEFT JOINed with users and vehicles, plus the `is_user_booked` flag). -/
structure ResRow where
  reservation_id : Nat
  user_id : Nat
  booking_status : String
  start_time : Option Nat
  end_time : Option Nat
  first_name : Option String
  last_name : Option String
  plate_number : Option String
  brand : Option String
  color : Option String
  spot_number : Option String
  is_user_booked : Bool
deriving Repr, DecidableEq

/-- LEFT JOIN of one reservation with users and vehicles. -/
def joinResRow (db : Db) (userId : Nat) (r : Reservation) : ResRow :=
  let u := db.users.find? (fun u => decide (u.user_id = r.user_id))
  let v := r.vehicle_id.bind fun vid =>
    db.vehicles.find? (fun v => decide (v.vehicle_id = vid))
  { reservation_id := r.reservation_id
    user_id := r.user_id
    booking_status := r.booking_status
    start_time := r.start_time
    end_time := r.end_time
    first_name := u.map (·.first_name)
    last_name := u.map (·.last_name)
    plate_number := v.map (·.plate_number)
    brand := v.bind (·.brand)
    color := v.bind (·.color)
    spot_number := r.spot_number
    is_user_booked := decide (r.user_id = userId ∧
      (r.booking_status = "reserved" ∨ r.booking_status = "active")) }

/-- `ORDER BY r.start_time` comparison (MySQL ascending, NULLs first). -/
def startTimeLe (a b : ResRow) : Bool :=
  match a.start_time, b.start_time with
  | none, _ => true
  | some _, none => false
  | some x, some y => decide (x ≤ y)

def insertByStart (a : ResRow) : List ResRow → List ResRow
  | [] => [a]
  | b :: l => if startTimeLe a b then a :: b :: l else b :: insertByStart a l

/-- Insertion sort realizing the query's `ORDER BY r.start_time`. -/
def sortByStart : List ResRow → List ResRow
  | [] => []
  | a :: l => insertByStart a (sortByStart l)

/-- The live-reservation rows of the spots route: reservations of the
section with status reserved/active whose `parking_spots_id` is the
capacity sentinel 0 or one of the section's own discrete spot ids,
ordered by start_time. -/
def liveRows (db : Db) (userId sectionId : Nat) : List ResRow :=
  sortByStart ((db.reservations.filter fun r =>
      decide (r.parking_section_id = some sectionId ∧
        (r.booking_status = "reserved" ∨ r.booking_status = "active") ∧
        (r.parking_spots_id = 0 ∨ ∃ p ∈ db.spots,
          p.parking_spot_id = r.parking_spots_id ∧
          p.parking_section_id = sectionId))).map
    (joinResRow db userId))

/-- JS template-literal rendering of a possibly-null join field. -/
def jsTpl (x : Option String) : String := x.getD "null"

/-- Occupant detail attached to an occupied pseudo-spot. -/
structure OccupantInfo where
  reservationId : Nat
  userId : Nat
  userName : String
  plateNumber : Option String
  brand : Option String
  color : Option String
  startTime : Option Nat
  endTime : Option Nat
deriving Repr, DecidableEq

def occupantOf (r : ResRow) : OccupantInfo :=
  { reservationId := r.reservation_id
    userId := r.user_id
    userName := jsTpl r.first_name ++ " " ++ jsTpl r.last_name
    plateNumber := r.plate_number
    brand := r.brand
    color := r.color
    startTime := r.start_time
    endTime := r.end_time }

/-- One synthesized pseudo-spot of the response grid. -/
structure VirtualSpot where
  spotId : String
  spotNumber : String
  spotType : String
  status : String
  sectionName : String
  isUserBooked : Bool
  occupant : Option OccupantInfo
deriving Repr, DecidableEq

/-- Pseudo-spot `i`: label `{sectionName}-{i}`, decorated from the first
live row whose stored spot_number equals the label, else `available`. -/
def mkVirtualSpot (sectionId : Nat) (sectionName : String) (rows : List ResRow)
    (i : Nat) : VirtualSpot :=
  let spotNumber := sectionName ++ "-" ++ toString i
  let found := rows.find? (fun r => decide (r.spot_number = some spotNumber))
  { spotId := toString sectionId ++ "-virtual-" ++ toString i
    spotNumber := spotNumber
    spotType := "motorcycle"
    status := match found with
      | some r => r.booking_status
      | none => "available"
    sectionName := sectionName
    isUserBooked := match found with
      | some r => r.is_user_booked
      | none => false
    occupant := found.map occupantOf }

inductive VirtualSpotsOutcome
  | sectionNotFound
  | grid (spots : List VirtualSpot)
deriving Repr, DecidableEq

/-- GET /sections/:sectionId/spots: synthesize pseudo-spots
`1..capacity` for the section and decorate each from the live rows. -/
def virtualSpots (db : Db) (sectionId userId : Nat) : VirtualSpotsOutcome :=
  match db.sections.find? (fun s =>
      decide (s.parking_section_id = sectionId ∧ s.vehicle_type = "motorcycle")) with
  | none => .sectionNotFound
  | some s =>
    let rows := liveRows db userId sectionId
    .grid ((List.range (jsOr0 s.capacity).toNat).map fun k =>
      mkVirtualSpot sectionId s.section_name rows (k + 1))

/-! ## Support lemmas about the SQL-statement helpers -/

theorem mem_updWhere_of_mem {p : α → Bool} {f : α → α} {l : List α} {a : α}
    (h : a ∈ l) : (if p a then f a else a) ∈ updWhere p f l :=
  List.mem_map_of_mem _ h

theorem exists_of_mem_updWhere {p : α → Bool} {f : α → α} {l : List α} {a : α}
    (h : a ∈ updWhere p f l) : ∃ b ∈ l, a = if p b then f b else b := by
  simp only [updWhere, List.mem_map] at h
  obtain ⟨b, hb, rfl⟩ := h
  exact ⟨b, hb, rfl⟩

theorem affected_eq_zero {p : α → Bool} {l : List α}
    (h : ∀ a ∈ l, ¬ p a = true) : affected p l = 0 := by
  simp only [affected, List.length_eq_zero, List.filter_eq_nil_iff]
  exact h

theorem affected_ne_zero {p : α → Bool} {l : List α} {a : α}
    (ha : a ∈ l) (hpa : p a = true) : affected p l ≠ 0 := by
  intro h
  rw [affected, List.length_eq_zero, List.filter_eq_nil_iff] at h
  exact h a ha (by simp [hpa])

theorem find?_eq_of_unique {p : α → Bool} {l : List α} {a : α}
    (ha : a ∈ l) (hpa : p a = true)
    (huni : ∀ b ∈ l, p b = true → b = a) : l.find? p = some a := by
  cases h : l.find? p with
  | none => exact absurd hpa (by simpa using List.find?_eq_none.mp h a ha)
  | some b =>
    rw [huni b (List.mem_of_find?_eq_some h) (List.find?_some h)]

theorem find?_updWhere {l : List α} {p hit : α → Bool} {f : α → α}
    (hpres : ∀ a, p (if hit a then f a else a) = p a) :
    (updWhere hit f l).find? p = (l.find? p).map fun a => if hit a then f a else a := by
  induction l with
  | nil => rfl
  | cons a t ih =>
    show List.find? p ((if hit a then f a else a) :: updWhere hit f t) = _
    rw [List.find?_cons, List.find?_cons, hpres a]
    cases hp : p a with
    | true => rfl
    | false => simpa using ih

theorem find?_append_left_none {l1 l2 : List α} {p : α → Bool}
    (h : ∀ x ∈ l1, p x = false) :
    (l1 ++ l2).find? p = l2.find? p := by
  induction l1 with
  | nil => simp
  | cons a t ih =>
    have ha := h a (by simp)
    rw [List.cons_append, List.find?_cons, ha]
    exact ih fun x hx => h x (by simp [hx])

/-! ## C10 -/

/-- C10: in every `capacityStatus` response, each entry's
`availableCapacity` equals `max 0 (totalCapacity - parkedCount -
reservedCount)` with missing counters read as 0, hence never negative,
and the reported figures come from a stored section of the database. -/
theorem capacity_status_reports_clamped_availability
    (db : Db) (areaId userId : Nat) (e : CapacityEntry)
    (he : e ∈ capacityStatus db areaId userId) :
    (∃ s ∈ db.sections,
        e.sectionId = s.parking_section_id ∧
        e.totalCapacity = jsOr0 s.capacity ∧
        e.parkedCount = jsOr0 s.parked_count ∧
        e.reservedCount = jsOr0 s.reserved_count) ∧
    e.availableCapacity = max 0 (e.totalCapacity - (e.parkedCount + e.reservedCount)) ∧
    0 ≤ e.availableCapacity := by
  simp only [capacityStatus, List.mem_map, List.mem_filter] at he
  obtain ⟨s, ⟨hs, _⟩, rfl⟩ := he
  exact ⟨⟨s, hs, rfl, rfl, rfl, rfl⟩, rfl, le_max_left _ _⟩

/-- A section whose stored counters drifted past its capacity. -/
def sectionDrifted : PSection :=
  { parking_section_id := 1
    parking_area_id := 7
    section_name := "A"
    vehicle_type := "motorcycle"
    section_mode := "capacity_only"
    capacity := some 3
    parked_count := some 5
    reserved_count := none
    status := "available" }

def dbDrifted : Db :=
  { users := []
    vehicles := []
    areas := []
    sections := [sectionDrifted]
    spots := []
    reservations := []
    nextReservationId := 1
    nextUserId := 1
    nextVehicleId := 1 }

theorem capacity_status_clamped_witness :
    capacityEntryOf dbDrifted 1 sectionDrifted ∈ capacityStatus dbDrifted 7 1 ∧
    (capacityEntryOf dbDrifted 1 sectionDrifted).availableCapacity =
      max 0 ((capacityEntryOf dbDrifted 1 sectionDrifted).totalCapacity -
        ((capacityEntryOf dbDrifted 1 sectionDrifted).parkedCount +
          (capacityEntryOf dbDrifted 1 sectionDrifted).reservedCount)) ∧
    0 ≤ (capacityEntryOf dbDrifted 1 sectionDrifted).availableCapacity :=
  ⟨by decide,
    (capacity_status_reports_clamped_availability dbDrifted 7 1
        (capacityEntryOf dbDrifted 1 sectionDrifted) (by decide)).2.1,
    (capacity_status_reports_clamped_availability dbDrifted 7 1
        (capacityEntryOf dbDrifted 1 sectionDrifted) (by decide)).2.2⟩

/-! ## C2 -/

/-- C2 (amended): the section-level capacity reserve path preserves
`parkedCount + reservedCount ≤ capacity` — it refuses to increment
`reservedCount` whenever the clamped availability is not positive — but
the claim as stated over every allocation path fails: guest walk-up
assignment (see the counterexample) has no capacity check at all. -/
theorem section_reserve_preserves_occupancy_invariant
    (db : Db) (sectionId userId now : Nat)
    (huniq : ∀ s ∈ db.sections, ∀ t ∈ db.sections,
      s.parking_section_id = t.parking_section_id → s = t)
    (hinv : ∀ s ∈ db.sections, sectionInv s) :
    ∀ s' ∈ (sectionReserve db sectionId userId now).2.sections, sectionInv s' := by
  intro s' hs'
  unfold sectionReserve at hs'
  cases hfind : db.sections.find? (fun s =>
      decide (s.parking_section_id = sectionId ∧ s.vehicle_type = "motorcycle")) with
  | none =>
    rw [hfind] at hs'
    exact hinv s' hs'
  | some s0 =>
    rw [hfind] at hs'
    by_cases havail :
        max 0 (jsOr0 s0.capacity - (jsOr0 s0.parked_count + jsOr0 s0.reserved_count)) ≤ 0
    · simp only [havail, if_pos] at hs'
      exact hinv s' hs'
    · simp only [havail, if_neg, not_false_eq_true] at hs'
      obtain ⟨b, hb, rfl⟩ := exists_of_mem_updWhere hs'
      by_cases hhit : b.parking_section_id = sectionId
      · have hs0mem := List.mem_of_find?_eq_some hfind
        have hs0p := List.find?_some hfind
        simp only [decide_eq_true_eq] at hs0p
        have hbeq : b = s0 := huniq b hb s0 hs0mem (by rw [hhit, hs0p.1])
        subst hbeq
        rw [if_pos (by simp [hhit])]
        have hx : 0 < jsOr0 b.capacity - (jsOr0 b.parked_count + jsOr0 b.reserved_count) :=
          lt_of_not_ge fun hgoal => havail (max_le le_rfl hgoal)
        show jsOr0 b.parked_count + jsOr0 (b.reserved_count.map (· + 1)) ≤ jsOr0 b.capacity
        cases hrc : b.reserved_count with
        | none =>
          simp only [jsOr0, hrc] at hx ⊢
          simp at hx ⊢
          omega
        | some rv =>
          simp only [jsOr0, hrc] at hx ⊢
          simp at hx ⊢
          omega
      · rw [if_neg (by simp [hhit])]
        exact hinv b hb

/-- A full one-slot section: capacity 1, one vehicle already parked. -/
def sectionFull : PSection :=
  { parking_section_id := 1
    parking_area_id := 7
    section_name := "A"
    vehicle_type := "motorcycle"
    section_mode := "capacity_only"
    capacity := some 1
    parked_count := some 1
    reserved_count := some 0
    status := "available" }

def dbFull : Db :=
  { users := []
    vehicles := []
    areas := []
    sections := [sectionFull]
    spots := []
    reservations := []
    nextReservationId := 1
    nextUserId := 1
    nextVehicleId := 1 }

/-- C2 counterexample: with the section already at capacity
(1 + 0 ≤ 1), a guest walk-up assignment to a fresh pseudo-spot label
still succeeds and increments `parked_count` to 2 > capacity, violating
the invariant the claim asserts for every allocation path. -/
theorem guest_assign_violates_capacity_invariant :
    (∀ s ∈ dbFull.sections, sectionInv s) ∧
    (guestAssign dbFull 1 "A-2" "Walkup" "XYZ-123" none none 9 100).1 = .ok 1 ∧
    ∃ s ∈ (guestAssign dbFull 1 "A-2" "Walkup" "XYZ-123" none none 9 100).2.sections,
      ¬ sectionInv s := by decide

/-- A section with one free unit, so a reserve can succeed. -/
def sectionRoom : PSection :=
  { parking_section_id := 1
    parking_area_id := 7
    section_name := "A"
    vehicle_type := "motorcycle"
    section_mode := "capacity_only"
    capacity := some 2
    parked_count := some 1
    reserved_count := some 0
    status := "available" }

def dbRoom : Db :=
  { users := []
    vehicles := []
    areas := []
    sections := [sectionRoom]
    spots := []
    reservations := []
    nextReservationId := 1
    nextUserId := 1
    nextVehicleId := 1 }

theorem section_reserve_invariant_witness :
    sectionInv { sectionRoom with reserved_count := some 1 } :=
  section_reserve_preserves_occupancy_invariant dbRoom 1 9 100
    (by decide) (by decide)
    { sectionRoom with reserved_count := some 1 } (by decide)

/-! ## C3 -/

/-- C3: confirm-parking is legal only from `reserved`: when the caller's
reservation has status `reserved`, the transaction flips it to `active`
with `start_time` set and in the same step moves the section one unit
from `reserved_count` to `parked_count`; when no row matches
(already `active` or `completed`), it fails and changes nothing. -/
theorem confirm_parking_atomic_transition
    (db : Db) (sectionId userId reservationId now : Nat) :
    (∀ r ∈ db.reservations,
      r.reservation_id = reservationId → r.user_id = userId →
      r.booking_status = "reserved" →
      ∀ s ∈ db.sections, s.parking_section_id = sectionId →
      ∀ pc rc : Int, s.parked_count = some pc → s.reserved_count = some rc →
        (confirmParking db sectionId userId reservationId now).1 = .confirmed ∧
        { r with booking_status := "active", start_time := some now } ∈
          (confirmParking db sectionId userId reservationId now).2.reservations ∧
        { s with reserved_count := some (rc - 1), parked_count := some (pc + 1) } ∈
          (confirmParking db sectionId userId reservationId now).2.sections) ∧
    ((∀ r ∈ db.reservations, ¬ confirmHit reservationId userId r = true) →
      confirmParking db sectionId userId reservationId now =
        (.notFoundOrAlreadyConfirmed, db)) := by
  constructor
  · intro r hr hid huid hst s hs hsid pc rc hpc hrc
    have hhit : confirmHit reservationId userId r = true := by
      simp [confirmHit, hid, huid, hst]
    have hne := affected_ne_zero hr hhit
    unfold confirmParking
    rw [if_neg hne]
    refine ⟨rfl, ?_, ?_⟩
    · have := mem_updWhere_of_mem (p := confirmHit reservationId userId)
        (f := fun r => { r with booking_status := "active", start_time := some now }) hr
      rw [if_pos hhit] at this
      exact this
    · have := mem_updWhere_of_mem
        (p := fun t => decide (t.parking_section_id = sectionId))
        (f := fun t => { t with
          reserved_count := t.reserved_count.map (· - 1)
          parked_count := t.parked_count.map (· + 1) }) hs
      rw [if_pos (by simp [hsid])] at this
      simpa [hpc, hrc] using this
  · intro hnone
    unfold confirmParking
    rw [if_pos (affected_eq_zero hnone)]

/-- One reserved capacity reservation ready to confirm. -/
def resReservedC3 : Reservation :=
  { reservation_id := 10
    user_id := 5
    vehicle_id := none
    parking_spots_id := 1
    parking_section_id := none
    spot_number := none
    booking_status := "reserved"
    time_stamp := 40
    start_time := some 40
    end_time := some 64
    qr := "CAP-40-5"
    qr_key := some "CAP-40-5" }

def sectionC3 : PSection :=
  { parking_section_id := 1
    parking_area_id := 7
    section_name := "A"
    vehicle_type := "motorcycle"
    section_mode := "capacity_only"
    capacity := some 3
    parked_count := some 0
    reserved_count := some 1
    status := "available" }

def dbC3 : Db :=
  { users := []
    vehicles := []
    areas := []
    sections := [sectionC3]
    spots := []
    reservations := [resReservedC3]
    nextReservationId := 11
    nextUserId := 1
    nextVehicleId := 1 }

/-- A database where the same reservation is already active. -/
def dbC3active : Db :=
  { dbC3 with reservations := [{ resReservedC3 with booking_status := "active" }] }

theorem confirm_parking_witness :
    ((confirmParking dbC3 1 5 10 50).1 = .confirmed ∧
      { resReservedC3 with booking_status := "active", start_time := some 50 } ∈
        (confirmParking dbC3 1 5 10 50).2.reservations ∧
      { sectionC3 with reserved_count := some 0, parked_count := some 1 } ∈
        (confirmParking dbC3 1 5 10 50).2.sections) ∧
    confirmParking dbC3active 1 5 10 50 = (.notFoundOrAlreadyConfirmed, dbC3active) :=
  ⟨(confirm_parking_atomic_transition dbC3 1 5 10 50).1 resReservedC3 (by decide)
      rfl rfl rfl sectionC3 (by decide) rfl 0 1 rfl rfl,
    (confirm_parking_atomic_transition dbC3active 1 5 10 50).2 (by decide)⟩

/-! ## C7 -/

/-- C7 (amended): ending an active capacity reservation decrements the
section's stored `parked_count` by exactly 1, but the decrement carries
no floor at zero — a stored counter of `p` always becomes `p - 1` (see
the counterexample driving 0 to -1); only the derived availability
reported by capacity-status is clamped. -/
theorem end_reservation_decrements_parked_by_exactly_one
    (db : Db) (sectionId userId now : Nat)
    (r : Reservation) (hr : r ∈ db.reservations)
    (hhit : endResHit sectionId userId r = true) :
    (endReservation db sectionId userId now).1 = .ended ∧
    ∀ s ∈ db.sections, s.parking_section_id = sectionId →
      ∀ pc : Int, s.parked_count = some pc →
        { s with parked_count := some (pc - 1) } ∈
          (endReservation db sectionId userId now).2.sections := by
  have hne := affected_ne_zero hr hhit
  unfold endReservation
  rw [if_neg hne]
  refine ⟨rfl, ?_⟩
  intro s hs hsid pc hpc
  have := mem_updWhere_of_mem
    (p := fun t => decide (t.parking_section_id = sectionId))
    (f := fun t => { t with parked_count := t.parked_count.map (· - 1) }) hs
  rw [if_pos (by simp [hsid])] at this
  simpa [hpc] using this

/-- An active capacity reservation over a section whose stored
`parked_count` has already drifted to 0. -/
def resActiveC7 : Reservation :=
  { reservation_id := 10
    user_id := 5
    vehicle_id := none
    parking_spots_id := 1
    parking_section_id := none
    spot_number := none
    booking_status := "active"
    time_stamp := 40
    start_time := some 41
    end_time := none
    qr := "CAP-40-5"
    qr_key := some "CAP-40-5" }

def sectionZeroParked : PSection :=
  { parking_section_id := 1
    parking_area_id := 7
    section_name := "A"
    vehicle_type := "motorcycle"
    section_mode := "capacity_only"
    capacity := some 3
    parked_count := some 0
    reserved_count := some 0
    status := "available" }

def dbZeroParked : Db :=
  { users := []
    vehicles := []
    areas := []
    sections := [sectionZeroParked]
    spots := []
    reservations := [resActiveC7]
    nextReservationId := 11
    nextUserId := 1
    nextVehicleId := 1 }

/-- C7 counterexample: ending an active reservation while the stored
`parked_count` is already 0 drives the counter to -1 — there is no
defensive floor at zero in the decrement. -/
theorem end_reservation_drives_parked_below_zero :
    (endReservation dbZeroParked 1 5 99).1 = .ended ∧
    ∃ s ∈ (endReservation dbZeroParked 1 5 99).2.sections,
      s.parked_count = some (-1) ∧ jsOr0 s.parked_count < 0 := by decide

theorem end_reservation_decrement_witness :
    (endReservation dbZeroParked 1 5 99).1 = .ended ∧
    { sectionZeroParked with parked_count := some (-1) } ∈
      (endReservation dbZeroParked 1 5 99).2.sections :=
  ⟨(end_reservation_decrements_parked_by_exactly_one dbZeroParked 1 5 99
      resActiveC7 (by decide) (by decide)).1,
    (end_reservation_decrements_parked_by_exactly_one dbZeroParked 1 5 99
      resActiveC7 (by decide) (by decide)).2 sectionZeroParked (by decide) rfl 0 rfl⟩

/-! ## C6 -/

/-- C6 (amended): the release route is legal only from status `active`
(not `reserved`): releasing the user's active reservation on a
pseudo-spot marks it `completed` with `end_time` set and decrements the
section's `parked_count` by 1; when the user's reservation on that spot
is not `active` (for example still `reserved`), the route fails and
changes nothing, so it does not return reserved capacity. -/
theorem release_spot_requires_active
    (db : Db) (sectionId : Nat) (spotNumber : String) (userId now : Nat) :
    (∀ r ∈ db.reservations, releaseHit sectionId spotNumber userId r = true →
      (releaseSpot db sectionId spotNumber userId now).1 = .released ∧
      { r with booking_status := "completed", end_time := some now } ∈
        (releaseSpot db sectionId spotNumber userId now).2.reservations ∧
      (∀ s ∈ db.sections, s.parking_section_id = sectionId →
        ∀ pc : Int, s.parked_count = some pc →
          { s with parked_count := some (pc - 1) } ∈
            (releaseSpot db sectionId spotNumber userId now).2.sections)) ∧
    ((∀ r ∈ db.reservations, ¬ releaseHit sectionId spotNumber userId r = true) →
      releaseSpot db sectionId spotNumber userId now = (.noActiveReservation, db)) := by
  constructor
  · intro r hr hhit
    have hne := affected_ne_zero hr hhit
    unfold releaseSpot
    rw [if_neg hne]
    refine ⟨rfl, ?_, ?_⟩
    · have := mem_updWhere_of_mem (p := releaseHit sectionId spotNumber userId)
        (f := fun r => { r with booking_status := "completed", end_time := some now }) hr
      rw [if_pos hhit] at this
      exact this
    · intro s hs hsid pc hpc
      have := mem_updWhere_of_mem
        (p := fun t => decide (t.parking_section_id = sectionId))
        (f := fun t => { t with parked_count := t.parked_count.map (· - 1) }) hs
      rw [if_pos (by simp [hsid])] at this
      simpa [hpc] using this
  · intro hnone
    unfold releaseSpot
    rw [if_pos (affected_eq_zero hnone)]

/-- A capacity reservation still in `reserved` (before confirm). -/
def resReservedC6 : Reservation :=
  { reservation_id := 10
    user_id := 5
    vehicle_id := some 2
    parking_spots_id := 0
    parking_section_id := some 1
    spot_number := some "A-1"
    booking_status := "reserved"
    time_stamp := 40
    start_time := none
    end_time := none
    qr := ""
    qr_key := some "k1" }

def sectionC6 : PSection :=
  { parking_section_id := 1
    parking_area_id := 7
    section_name := "A"
    vehicle_type := "motorcycle"
    section_mode := "capacity_only"
    capacity := some 3
    parked_count := some 0
    reserved_count := some 1
    status := "available" }

def dbC6 : Db :=
  { users := []
    vehicles := []
    areas := []
    sections := [sectionC6]
    spots := []
    reservations := [resReservedC6]
    nextReservationId := 11
    nextUserId := 1
    nextVehicleId := 1 }

/-- C6 counterexample: releasing a capacity reservation that is still in
status `reserved` does not set it `completed` and does not decrement
`reserved_count`; the route requires status `active` and errors,
leaving the database untouched. -/
theorem release_of_reserved_reservation_fails :
    releaseSpot dbC6 1 "A-1" 5 99 = (.noActiveReservation, dbC6) ∧
    (∀ r ∈ (releaseSpot dbC6 1 "A-1" 5 99).2.reservations,
      r.booking_status = "reserved") ∧
    (∀ s ∈ (releaseSpot dbC6 1 "A-1" 5 99).2.sections,
      s.reserved_count = some 1) := by decide

/-- The same database after the reservation was confirmed (active). -/
def dbC6active : Db :=
  { dbC6 with
    reservations := [{ resReservedC6 with booking_status := "active", start_time := some 41 }]
    sections := [{ sectionC6 with parked_count := some 1, reserved_count := some 0 }] }

theorem release_spot_witness :
    (releaseSpot dbC6active 1 "A-1" 5 99).1 = .released ∧
    releaseSpot dbC6 1 "A-1" 5 99 = (.noActiveReservation, dbC6) :=
  ⟨((release_spot_requires_active dbC6active 1 "A-1" 5 99).1
      { resReservedC6 with booking_status := "active", start_time := some 41 }
      (by decide) (by decide)).1,
    (release_spot_requires_active dbC6 1 "A-1" 5 99).2 (by decide)⟩

/-! ## C5 -/

/-- C5 (amended): the capacity-section transitions (confirm-parking,
end-reservation, spot release) condition their row updates on the
expected prior status and, when the conditional update matches zero
rows, surface an error and perform no mutation at all; the end-session
route, however, conditions its update on the reservation id alone, so a
reservation that is already `completed` is transitioned again: the call
reports success rather than a conflict. -/
theorem transitions_conditioned_except_end_session
    (db : Db) (sectionId userId reservationId now : Nat) (spotNumber : String) :
    ((∀ r ∈ db.reservations, ¬ confirmHit reservationId userId r = true) →
      confirmParking db sectionId userId reservationId now =
        (.notFoundOrAlreadyConfirmed, db)) ∧
    ((∀ r ∈ db.reservations, ¬ endResHit sectionId userId r = true) →
      endReservation db sectionId userId now = (.noActiveReservation, db)) ∧
    ((∀ r ∈ db.reservations, ¬ releaseHit sectionId spotNumber userId r = true) →
      releaseSpot db sectionId spotNumber userId now = (.noActiveReservation, db)) ∧
    (∀ r ∈ db.reservations,
      r.reservation_id = reservationId → r.user_id = userId →
      r.booking_status = "completed" →
      (endSession db reservationId userId now).1 = .ended reservationId) := by
  refine ⟨?_, ?_, ?_, ?_⟩
  · intro hnone
    unfold confirmParking
    rw [if_pos (affected_eq_zero hnone)]
  · intro hnone
    unfold endReservation
    rw [if_pos (affected_eq_zero hnone)]
  · intro hnone
    unfold releaseSpot
    rw [if_pos (affected_eq_zero hnone)]
  · intro r hr hid huid _
    unfold endSession
    have hsome : (db.reservations.find? fun r =>
        decide (r.reservation_id = reservationId ∧ r.user_id = userId)).isSome := by
      rw [List.find?_isSome]
      exact ⟨r, hr, by simp [hid, huid]⟩
    obtain ⟨rfound, hfound⟩ := Option.isSome_iff_exists.mp hsome
    rw [hfound]

/-- A completed reservation whose discrete spot has meanwhile been
rebooked (status `reserved`). -/
def resCompletedC5 : Reservation :=
  { reservation_id := 10
    user_id := 5
    vehicle_id := some 2
    parking_spots_id := 7
    parking_section_id := some 1
    spot_number := some "A-7"
    booking_status := "completed"
    time_stamp := 40
    start_time := some 41
    end_time := some 44
    qr := ""
    qr_key := some "k1" }

def spotRebookedC5 : PSpot :=
  { parking_spot_id := 7
    parking_section_id := 1
    spot_number := "7"
    spot_type := "car"
    status := "reserved" }

def dbC5 : Db :=
  { users := []
    vehicles := []
    areas := []
    sections := []
    spots := [spotRebookedC5]
    reservations := [resCompletedC5]
    nextReservationId := 11
    nextUserId := 1
    nextVehicleId := 1 }

/-- C5 counterexample: the end-session route applied to an
already-completed reservation does not surface a conflict — it reports
success, rewrites the reservation's `end_time`, and frees the recorded
spot (which another user has meanwhile reserved). -/
theorem end_session_retransitions_completed :
    (endSession dbC5 10 5 99).1 = .ended 10 ∧
    (∃ r ∈ (endSession dbC5 10 5 99).2.reservations,
      r.reservation_id = 10 ∧ r.end_time = some 99) ∧
    ∃ p ∈ (endSession dbC5 10 5 99).2.spots,
      p.parking_spot_id = 7 ∧ p.status = "available" := by decide

/-- Instantiates every conjunct: `dbC5` has no `reserved` row for
confirm, no `active` row for end/release, and a completed row for
end-session. -/
theorem transitions_conditioned_witness :
    confirmParking dbC5 1 5 10 99 = (.notFoundOrAlreadyConfirmed, dbC5) ∧
    endReservation dbC5 1 5 99 = (.noActiveReservation, dbC5) ∧
    releaseSpot dbC5 1 "A-7" 5 99 = (.noActiveReservation, dbC5) ∧
    (endSession dbC5 10 5 99).1 = .ended 10 :=
  ⟨(transitions_conditioned_except_end_session dbC5 1 5 10 99 "A-7").1 (by decide),
    (transitions_conditioned_except_end_session dbC5 1 5 10 99 "A-7").2.1 (by decide),
    (transitions_conditioned_except_end_session dbC5 1 5 10 99 "A-7").2.2.1 (by decide),
    (transitions_conditioned_except_end_session dbC5 1 5 10 99 "A-7").2.2.2
      resCompletedC5 (by decide) rfl rfl rfl⟩

/-! ## C4 -/

/-- C4 (amended): only the pseudo-spot assign path pre-checks duplicate
sessions, and only against status `active`: a request by a user who
already holds an *active* reservation is rejected with the
already-parked error and the database is left untouched (no reservation
row, no counter or spot mutation); a user holding only a `reserved`
reservation is not rejected (see the counterexample), and the /book
path performs no duplicate-session pre-check at all. -/
theorem assign_rejects_only_active_session
    (db : Db) (sectionId : Nat) (spotNumber : String)
    (vehicleId userId : Nat) (qrKey : String) (now : Nat) (sec : PSection)
    (hu : userId ≠ 0) (hsid : sectionId ≠ 0) (hsp : spotNumber ≠ "") (hv : vehicleId ≠ 0)
    (hsec : db.sections.find? (fun s =>
        decide (s.parking_section_id = sectionId ∧ s.vehicle_type = "motorcycle")) =
      some sec)
    (hveh : (db.vehicles.find? (fun v =>
        decide (v.vehicle_id = vehicleId ∧ v.user_id = userId))).isSome)
    (r : Reservation) (hr : r ∈ db.reservations)
    (huid : r.user_id = userId) (hact : r.booking_status = "active") :
    assignSpot db sectionId spotNumber vehicleId userId qrKey now =
      (.activeSessionExists, db) := by
  unfold assignSpot
  rw [if_neg (by simp [hu, hsid, hsp, hv])]
  rw [hsec]
  have hvmem : ∃ v ∈ db.vehicles, v.vehicle_id = vehicleId ∧ v.user_id = userId := by
    obtain ⟨v, hveq⟩ := Option.isSome_iff_exists.mp hveh
    exact ⟨v, List.mem_of_find?_eq_some hveq, by simpa using List.find?_some hveq⟩
  rw [if_neg (by simp [Option.isNone_iff_eq_none]; exact hvmem)]
  rw [if_pos ?goal2]
  case goal2 =>
    rw [List.any_eq_true]
    exact ⟨r, hr, by simp [huid, hact]⟩

/-- A user who merely holds a `reserved` (not yet active) reservation. -/
def resReservedC4 : Reservation :=
  { reservation_id := 3
    user_id := 5
    vehicle_id := some 2
    parking_spots_id := 0
    parking_section_id := some 1
    spot_number := some "A-1"
    booking_status := "reserved"
    time_stamp := 40
    start_time := none
    end_time := none
    qr := ""
    qr_key := some "k0" }

def sectionC4 : PSection :=
  { parking_section_id := 1
    parking_area_id := 7
    section_name := "A"
    vehicle_type := "motorcycle"
    section_mode := "capacity_only"
    capacity := some 3
    parked_count := some 0
    reserved_count := some 1
    status := "available" }

def vehicleC4 : Vehicle :=
  { vehicle_id := 2
    user_id := 5
    vehicle_type := "motorcycle"
    plate_number := "MC-55"
    brand := none
    color := none }

def dbC4 : Db :=
  { users := []
    vehicles := [vehicleC4]
    areas := []
    sections := [sectionC4]
    spots := []
    reservations := [resReservedC4]
    nextReservationId := 4
    nextUserId := 1
    nextVehicleId := 3 }

/-- C4 counterexample: user 5 already holds a reservation with status
`reserved`, yet the assign booking path accepts a second booking request
from the same user, creating a second live reservation row — the
claimed USER_ALREADY_PARKED rejection for status `reserved` does not
exist in the code. -/
theorem assign_accepts_user_with_reserved_reservation :
    (∃ r ∈ dbC4.reservations, r.user_id = 5 ∧ r.booking_status = "reserved") ∧
    (assignSpot dbC4 1 "A-2" 2 5 "k9" 50).1 = .assigned 4 "k9" ∧
    ((assignSpot dbC4 1 "A-2" 2 5 "k9" 50).2.reservations.filter fun r =>
      decide (r.user_id = 5 ∧
        (r.booking_status = "reserved" ∨ r.booking_status = "active"))).length = 2 := by
  decide

/-- The same database once the first reservation became `active`. -/
def dbC4active : Db :=
  { dbC4 with reservations := [{ resReservedC4 with booking_status := "active" }] }

theorem assign_rejects_active_witness :
    assignSpot dbC4active 1 "A-2" 2 5 "k9" 50 = (.activeSessionExists, dbC4active) :=
  assign_rejects_only_active_session dbC4active 1 "A-2" 2 5 "k9" 50 sectionC4
    (by decide) (by decide) (by decide) (by decide) (by decide) (by decide)
    { resReservedC4 with booking_status := "active" } (by decide) rfl rfl

/-! ## C1 -/

/-- C1: on the discrete-spot path, (a) whenever the conditional update
(`status: available → reserved`, keyed on the spot id and its prior
status) affects zero rows — i.e. the spot is no longer available when
the commit phase runs — the call fails with the typed conflict code
`spotAlreadyBooked`, no reservation row is created and the database is
unchanged; (b) a booking that succeeds leaves the spot with status
`reserved` and commits exactly one new reservation row in status
`reserved` carrying the minted token. -/
theorem discrete_booking_conditional_update
    (db : Db) (userId vehicleId spotId areaId : Nat) (qrKey : String) (now : Nat)
    (huniq : ∀ p ∈ db.spots, ∀ q ∈ db.spots,
      p.parking_spot_id = q.parking_spot_id → p = q) :
    ((∀ p ∈ db.spots, p.parking_spot_id = spotId → p.status ≠ "available") →
      bookCommit db userId vehicleId spotId qrKey now = (.spotAlreadyBooked, db)) ∧
    (∀ rid key db',
      book db userId vehicleId spotId areaId qrKey now = (.okSpot rid key, db') →
      (∀ p ∈ db'.spots, p.parking_spot_id = spotId → p.status = "reserved") ∧
      ∃ r ∈ db'.reservations, r.reservation_id = rid ∧
        r.booking_status = "reserved" ∧ r.qr_key = some key) := by
  have hcommit : ∀ rid key db',
      bookCommit db userId vehicleId spotId qrKey now = (.okSpot rid key, db') →
      (∃ spot ∈ db.spots, spot.parking_spot_id = spotId ∧ spot.status = "available") →
      (∀ p ∈ db'.spots, p.parking_spot_id = spotId → p.status = "reserved") ∧
      ∃ r ∈ db'.reservations, r.reservation_id = rid ∧
        r.booking_status = "reserved" ∧ r.qr_key = some key := by
    intro rid key db' hbook hex
    unfold bookCommit at hbook
    split at hbook
    · simp at hbook
    · simp only [Prod.mk.injEq, BookOutcome.okSpot.injEq] at hbook
      obtain ⟨⟨hrid, hkey⟩, hdb⟩ := hbook
      subst hrid hkey
      constructor
      · intro p hp hpid
        rw [← hdb] at hp
        obtain ⟨b, hb, rfl⟩ := exists_of_mem_updWhere hp
        obtain ⟨spot, hsm, hsid, hsav⟩ := hex
        by_cases hc : decide (b.parking_spot_id = spotId ∧ b.status = "available") = true
        · rw [if_pos hc]
        · rw [if_neg hc] at hpid ⊢
          have : b = spot := huniq b hb spot hsm (by rw [hpid, hsid])
          subst this
          simp [hpid, hsav] at hc
      · refine ⟨{ newSpotReservation db userId vehicleId spotId qrKey now with
            qr := qrToDataURL (qrPayload qrKey) }, ?_, rfl, rfl, rfl⟩
        rw [← hdb]
        have hmem : newSpotReservation db userId vehicleId spotId qrKey now ∈
            db.reservations ++ [newSpotReservation db userId vehicleId spotId qrKey now] :=
          List.mem_append_right _ (List.mem_singleton.mpr rfl)
        have h2 := mem_updWhere_of_mem
          (p := fun r => decide (r.reservation_id = db.nextReservationId))
          (f := fun r => { r with qr := qrToDataURL (qrPayload qrKey) }) hmem
        rw [if_pos (by simp [newSpotReservation])] at h2
        exact h2
  constructor
  · intro hna
    have h0 : (reserveSpotIfAvailable db.spots spotId).1 = 0 := by
      unfold reserveSpotIfAvailable
      exact affected_eq_zero fun p hp => by
        simp only [Bool.not_eq_true, decide_eq_false_iff_not, not_and]
        intro hid
        exact hna p hp hid
    unfold bookCommit
    rw [if_pos h0]
  · intro rid key db' hbook
    unfold book at hbook
    split at hbook
    · simp at hbook
    · split at hbook
      · simp at hbook
      · split at hbook
        · simp at hbook
        · next vehicle hveh =>
          split at hbook
          · unfold bookMotorcycleSection at hbook
            split at hbook <;> simp at hbook
          · split at hbook
            · simp at hbook
            · split at hbook
              · simp at hbook
              · next spot hspot =>
                split at hbook
                · simp at hbook
                · next hstatus =>
                  split at hbook
                  · simp at hbook
                  · refine hcommit rid key db' hbook ?_
                    refine ⟨spot, List.mem_of_find?_eq_some hspot, ?_, ?_⟩
                    · simpa using List.find?_some hspot
                    · simpa using hstatus

/-- A car, its owner's area, and one available car spot. -/
def vehicleC1 : Vehicle :=
  { vehicle_id := 2
    user_id := 5
    vehicle_type := "Car"
    plate_number := "AB-123"
    brand := some "Toyota"
    color := some "red" }

def areaC1 : Area :=
  { parking_area_id := 7
    parking_area_name := "Main"
    location := "North"
    status := "active" }

def spotC1 : PSpot :=
  { parking_spot_id := 3
    parking_section_id := 1
    spot_number := "3"
    spot_type := "car"
    status := "available" }

def dbC1 : Db :=
  { users := []
    vehicles := [vehicleC1]
    areas := [areaC1]
    sections := []
    spots := [spotC1]
    reservations := []
    nextReservationId := 4
    nextUserId := 1
    nextVehicleId := 3 }

/-- The same database after someone else has taken the spot. -/
def dbC1taken : Db :=
  { dbC1 with spots := [{ spotC1 with status := "reserved" }] }

theorem discrete_booking_witness :
    bookCommit dbC1taken 5 2 3 "k" 50 = (.spotAlreadyBooked, dbC1taken) ∧
    (∀ p ∈ (book dbC1 5 2 3 7 "k" 50).2.spots,
      p.parking_spot_id = 3 → p.status = "reserved") ∧
    ∃ r ∈ (book dbC1 5 2 3 7 "k" 50).2.reservations,
      r.reservation_id = 4 ∧ r.booking_status = "reserved" ∧ r.qr_key = some "k" :=
  ⟨(discrete_booking_conditional_update dbC1taken 5 2 3 7 "k" 50 (by decide)).1
      (by decide),
    (discrete_booking_conditional_update dbC1 5 2 3 7 "k" 50 (by decide)).2
      4 "k" (book dbC1 5 2 3 7 "k" 50).2 (by decide)⟩

/-! ## C9 -/

/-- C9: for a capacity section of capacity `c`, the spots route yields
exactly `c` pseudo-spots labeled `{sectionName}-1 .. {sectionName}-c`
in order; a pseudo-spot whose label is held by exactly one live row is
reported with that row's booking status and occupant detail, and a
pseudo-spot whose label no live row holds is reported `available` with
no occupant. -/
theorem virtual_spots_grid_synthesis
    (db : Db) (sectionId userId : Nat) (s : PSection) (spots : List VirtualSpot)
    (hs : db.sections.find? (fun s =>
        decide (s.parking_section_id = sectionId ∧ s.vehicle_type = "motorcycle")) =
      some s)
    (hok : virtualSpots db sectionId userId = .grid spots) :
    spots.length = (jsOr0 s.capacity).toNat ∧
    (∀ i (h : i < spots.length),
      (spots.get ⟨i, h⟩).spotNumber = s.section_name ++ "-" ++ toString (i + 1)) ∧
    (∀ i (h : i < spots.length),
      ((∀ r ∈ liveRows db userId sectionId,
          r.spot_number ≠ some (s.section_name ++ "-" ++ toString (i + 1))) →
        (spots.get ⟨i, h⟩).status = "available" ∧
        (spots.get ⟨i, h⟩).occupant = none) ∧
      (∀ r ∈ liveRows db userId sectionId,
        r.spot_number = some (s.section_name ++ "-" ++ toString (i + 1)) →
        (∀ r' ∈ liveRows db userId sectionId,
          r'.spot_number = some (s.section_name ++ "-" ++ toString (i + 1)) → r' = r) →
        (spots.get ⟨i, h⟩).status = r.booking_status ∧
        (spots.get ⟨i, h⟩).occupant = some (occupantOf r))) := by
  unfold virtualSpots at hok
  rw [hs] at hok
  simp only [VirtualSpotsOutcome.grid.injEq] at hok
  subst hok
  refine ⟨by simp, ?_, ?_⟩
  · intro i h
    simp only [List.get_eq_getElem, List.getElem_map,
      List.getElem_range, mkVirtualSpot]
  · intro i h
    constructor
    · intro hnone
      have hfind : (liveRows db userId sectionId).find? (fun r =>
          decide (r.spot_number = some (s.section_name ++ "-" ++ toString (i + 1)))) =
          none := by
        rw [List.find?_eq_none]
        intro r hr
        simp only [decide_eq_true_eq]
        exact hnone r hr
      simp only [List.get_eq_getElem, List.getElem_map, List.getElem_range,
        mkVirtualSpot, hfind]
      exact ⟨trivial, rfl⟩
    · intro r hr hlab huni
      have hfind : (liveRows db userId sectionId).find? (fun r =>
          decide (r.spot_number = some (s.section_name ++ "-" ++ toString (i + 1)))) =
          some r :=
        find?_eq_of_unique hr (by simp [hlab])
          fun b hb hpb => huni b hb (by simpa using hpb)
      simp only [List.get_eq_getElem, List.getElem_map, List.getElem_range,
        mkVirtualSpot, hfind]
      exact ⟨trivial, rfl⟩

/-- The spec's worked example: a 3-capacity section "A" whose only live
reservation is active and labeled "A-2". -/
def userC9 : PUser :=
  { user_id := 5, first_name := "Ana", last_name := "Lopez", email := "a@x" }

def vehicleC9 : Vehicle :=
  { vehicle_id := 2
    user_id := 5
    vehicle_type := "motorcycle"
    plate_number := "MC-9"
    brand := some "Honda"
    color := some "blue" }

def sectionC9 : PSection :=
  { parking_section_id := 1
    parking_area_id := 7
    section_name := "A"
    vehicle_type := "motorcycle"
    section_mode := "capacity_only"
    capacity := some 3
    parked_count := some 1
    reserved_count := some 0
    status := "available" }

def resActiveC9 : Reservation :=
  { reservation_id := 10
    user_id := 5
    vehicle_id := some 2
    parking_spots_id := 0
    parking_section_id := some 1
    spot_number := some "A-2"
    booking_status := "active"
    time_stamp := 40
    start_time := some 41
    end_time := none
    qr := ""
    qr_key := some "k1" }

def dbC9 : Db :=
  { users := [userC9]
    vehicles := [vehicleC9]
    areas := []
    sections := [sectionC9]
    spots := []
    reservations := [resActiveC9]
    nextReservationId := 11
    nextUserId := 6
    nextVehicleId := 3 }

/-- The grid the route produces for `dbC9`. -/
def gridC9 : List VirtualSpot :=
  (List.range 3).map fun k => mkVirtualSpot 1 "A" (liveRows dbC9 5 1) (k + 1)

theorem virtual_spots_witness :
    virtualSpots dbC9 1 5 = .grid gridC9 ∧
      gridC9.length = 3 ∧
      (∀ h : 1 < gridC9.length,
        (gridC9.get ⟨1, h⟩).spotNumber = "A-2" ∧
        (gridC9.get ⟨1, h⟩).status = "active" ∧
        (gridC9.get ⟨1, h⟩).occupant = some (occupantOf (joinResRow dbC9 5 resActiveC9))) ∧
      (∀ h : 0 < gridC9.length,
        (gridC9.get ⟨0, h⟩).status = "available" ∧ (gridC9.get ⟨0, h⟩).occupant = none) ∧
      (∀ h : 2 < gridC9.length,
        (gridC9.get ⟨2, h⟩).status = "available" ∧ (gridC9.get ⟨2, h⟩).occupant = none) := by
  refine ⟨by decide, ?_, ?_, ?_, ?_⟩
  · have := virtual_spots_grid_synthesis dbC9 1 5 sectionC9 gridC9 (by decide) (by decide)
    simpa using this.1
  · intro h
    have hthm := virtual_spots_grid_synthesis dbC9 1 5 sectionC9 gridC9 (by decide) (by decide)
    refine ⟨by simpa using hthm.2.1 1 h, ?_⟩
    have := (hthm.2.2 1 h).2 (joinResRow dbC9 5 resActiveC9) (by decide) (by decide)
      (by decide)
    exact ⟨this.1, this.2⟩
  · intro h
    have hthm := virtual_spots_grid_synthesis dbC9 1 5 sectionC9 gridC9 (by decide) (by decide)
    exact (hthm.2.2 0 h).1 (by decide)
  · intro h
    have hthm := virtual_spots_grid_synthesis dbC9 1 5 sectionC9 gridC9 (by decide) (by decide)
    exact (hthm.2.2 2 h).1 (by decide)

/-! ## C8 -/

theorem updWhere_append {p : α → Bool} {f : α → α} {l1 l2 : List α} :
    updWhere p f (l1 ++ l2) = updWhere p f l1 ++ updWhere p f l2 :=
  List.map_append _ _ _

/-- C8: token round trip.  (a) Booking a discrete spot mints the opaque
token `qrKey`, stores it as the reservation's `qr_key`, and writes a
barcode image whose sole payload is `JSON.stringify({qr_key})`; resolving
the booking afterwards returns the same `reservationId` and the same
bare token.  (b) A stored qr_key that is structured JSON data (starts
with a brace or bracket and does not parse to a non-object) is rejected
defensively: the sanitizer surfaces `none` instead of a token. -/
theorem token_round_trip_and_structured_rejected
    (db : Db) (userId vehicleId spotId areaId : Nat) (qrKey : String) (now : Nat)
    (jsonKindOf : String → JsParseKind)
    (veh : Vehicle) (spot : PSpot) (sec : PSection)
    (hv : vehicleId ≠ 0) (hsp : spotId ≠ 0) (ha : areaId ≠ 0)
    (hveh1 : (db.vehicles.find? (fun v =>
        decide (v.vehicle_id = vehicleId ∧ v.user_id = userId))).isSome)
    (hveh2 : db.vehicles.find? (fun v => decide (v.vehicle_id = vehicleId)) = some veh)
    (hmoto : jsToLower veh.vehicle_type ≠ "motorcycle")
    (hmoto2 : veh.vehicle_type ≠ "motorcycle")
    (harea : (db.areas.find? (fun a => decide (a.parking_area_id = areaId))).isSome)
    (hspot : db.spots.find? (fun p => decide (p.parking_spot_id = spotId)) = some spot)
    (havail : spot.status = "available")
    (htype : expectedSpotTypeOf veh.vehicle_type = jsToLower spot.spot_type)
    (huser : (db.users.find? (fun u => decide (u.user_id = userId))).isSome)
    (hsec : db.sections.find? (fun t =>
        decide (t.parking_section_id = spot.parking_section_id)) = some sec)
    (harea2 : (db.areas.find? (fun a2 =>
        decide (a2.parking_area_id = sec.parking_area_id))).isSome)
    (hfresh : ∀ r ∈ db.reservations, r.reservation_id ≠ db.nextReservationId)
    (hk0 : qrKey ≠ "") (hkt : jsTrim qrKey = qrKey)
    (hk1 : strStartsWith qrKey "\x7b" = false)
    (hk2 : strStartsWith qrKey "[" = false) :
    ((book db userId vehicleId spotId areaId qrKey now).1 =
        .okSpot db.nextReservationId qrKey ∧
      getBooking (book db userId vehicleId spotId areaId qrKey now).2
          db.nextReservationId userId jsonKindOf =
        .found { reservationId := db.nextReservationId
                 bookingStatus := "reserved"
                 spotNumberOut := some spot.spot_number
                 qrCode := qrToDataURL (qrPayload qrKey)
                 qrKeyOut := some qrKey }) ∧
    (∀ (tyf : String → JsParseKind) (k : String), k ≠ "" →
      (strStartsWith (jsTrim k) "\x7b" = true ∨ strStartsWith (jsTrim k) "[" = true) →
      tyf (jsTrim k) ≠ .otherVal →
      sanitizeQrKey tyf (some k) = none) := by
  constructor
  · obtain ⟨u0, huser'⟩ := Option.isSome_iff_exists.mp huser
    obtain ⟨a0, harea'⟩ := Option.isSome_iff_exists.mp harea
    obtain ⟨a20, harea2'⟩ := Option.isSome_iff_exists.mp harea2
    have hvmem : ∃ v ∈ db.vehicles, v.vehicle_id = vehicleId ∧ v.user_id = userId := by
      obtain ⟨v, hveq⟩ := Option.isSome_iff_exists.mp hveh1
      exact ⟨v, List.mem_of_find?_eq_some hveq, by simpa using List.find?_some hveq⟩
    have hb : book db userId vehicleId spotId areaId qrKey now =
        bookCommit db userId vehicleId spotId qrKey now := by
      unfold book
      rw [if_neg (by simp [hv, hsp, ha])]
      rw [if_neg (by simp [Option.isNone_iff_eq_none]; exact hvmem)]
      simp only [hveh2]
      rw [if_neg hmoto]
      rw [if_neg (by simp [harea'])]
      simp only [hspot]
      rw [if_neg (by simp [havail])]
      rw [if_neg (by simp [htype])]
    have hspotid : spot.parking_spot_id = spotId := by
      simpa using List.find?_some hspot
    have hne : ¬ (reserveSpotIfAvailable db.spots spotId).1 = 0 := by
      unfold reserveSpotIfAvailable
      exact affected_ne_zero (List.mem_of_find?_eq_some hspot)
        (by simp [hspotid, havail])
    have hc : bookCommit db userId vehicleId spotId qrKey now =
        (.okSpot db.nextReservationId qrKey,
          { db with
            spots := (reserveSpotIfAvailable db.spots spotId).2
            reservations := updWhere
              (fun r => decide (r.reservation_id = db.nextReservationId))
              (fun r => { r with qr := qrToDataURL (qrPayload qrKey) })
              (db.reservations ++
                [newSpotReservation db userId vehicleId spotId qrKey now])
            nextReservationId := db.nextReservationId + 1 }) := by
      unfold bookCommit
      rw [if_neg hne]
    have hsan : sanitizeQrKey jsonKindOf (some qrKey) = some qrKey := by
      simp only [sanitizeQrKey]
      rw [if_neg hk0, if_neg (by simp [hkt, hk1, hk2]), hkt]
    have hget : ∀ db2 : Db,
        db2.reservations.find? (fun r =>
          decide (r.reservation_id = db.nextReservationId ∧ r.user_id = userId)) =
          some { newSpotReservation db userId vehicleId spotId qrKey now with
                 qr := qrToDataURL (qrPayload qrKey) } →
        db2.vehicles = db.vehicles → db2.users = db.users →
        db2.sections = db.sections → db2.areas = db.areas →
        db2.spots.find? (fun p => decide (p.parking_spot_id = spotId)) =
          some { spot with status := "reserved" } →
        getBooking db2 db.nextReservationId userId jsonKindOf =
          .found { reservationId := db.nextReservationId
                   bookingStatus := "reserved"
                   spotNumberOut := some spot.spot_number
                   qrCode := qrToDataURL (qrPayload qrKey)
                   qrKeyOut := some qrKey } := by
      intro db2 hfind hveq hueq hseq haeq hspq
      have hnull : jsOrNullStr (some qrKey) = some qrKey := by
        simp only [jsOrNullStr]
        rw [if_neg hk0]
      simp only [getBooking, hfind]
      rw [if_neg (by simp [newSpotReservation, hveq, hveh2, hmoto2])]
      simp only [joinRegularBooking, newSpotReservation, Option.some_bind,
        hueq, huser', hveq, hveh2, hspq, hseq, hsec, haeq, harea2',
        Option.map_some', sanitizedFound, hsan, hnull]
    rw [hb, hc]
    refine ⟨rfl, hget _ ?_ rfl rfl rfl rfl ?_⟩
    · show (updWhere (fun r => decide (r.reservation_id = db.nextReservationId))
        (fun r => { r with qr := qrToDataURL (qrPayload qrKey) })
        (db.reservations ++
          [newSpotReservation db userId vehicleId spotId qrKey now])).find? _ = _
      rw [updWhere_append, find?_append_left_none ?hnone]
      case hnone =>
        intro x hx
        obtain ⟨b, hb2, rfl⟩ := exists_of_mem_updWhere hx
        have hne2 := hfresh b hb2
        rw [if_neg (by simp [hne2])]
        simp [hne2]
      have hsing : updWhere
          (fun r => decide (r.reservation_id = db.nextReservationId))
          (fun r => { r with qr := qrToDataURL (qrPayload qrKey) })
          [newSpotReservation db userId vehicleId spotId qrKey now] =
          [{ newSpotReservation db userId vehicleId spotId qrKey now with
             qr := qrToDataURL (qrPayload qrKey) }] := by
        simp [updWhere, newSpotReservation]
      rw [hsing, List.find?_cons_of_pos _ (by simp [newSpotReservation])]
    · show ((reserveSpotIfAvailable db.spots spotId).2).find? _ = _
      unfold reserveSpotIfAvailable
      have hpres : ∀ a : PSpot,
          (fun p : PSpot => decide (p.parking_spot_id = spotId))
            (if decide (a.parking_spot_id = spotId ∧ a.status = "available") = true
              then { a with status := "reserved" } else a) =
          decide (a.parking_spot_id = spotId) := by
        intro a
        by_cases hca :
            decide (a.parking_spot_id = spotId ∧ a.status = "available") = true
        · rw [if_pos hca]
        · rw [if_neg hca]
      rw [find?_updWhere hpres]
      rw [hspot]
      simp only [Option.map_some']
      rw [if_pos (by simp [hspotid, havail])]
  · intro tyf k hk hbr hno
    have hcond : strStartsWith (jsTrim k) "\x7b" = true ∨
        strStartsWith (jsTrim k) "[" = true := hbr
    simp only [sanitizeQrKey]
    rw [if_neg hk, if_pos (by exact_mod_cast hcond)]
    rcases hkind : tyf (jsTrim k) with _ | _ | _
    · rfl
    · rfl
    · exact absurd hkind hno

def userC8 : PUser :=
  { user_id := 5, first_name := "Bo", last_name := "Li", email := "b@x" }

def vehicleC8 : Vehicle :=
  { vehicle_id := 2
    user_id := 5
    vehicle_type := "car"
    plate_number := "XY-7"
    brand := none
    color := none }

def areaC8 : Area :=
  { parking_area_id := 7
    parking_area_name := "Main"
    location := "N"
    status := "active" }

def sectionC8 : PSection :=
  { parking_section_id := 1
    parking_area_id := 7
    section_name := "B"
    vehicle_type := "car"
    section_mode := "discrete"
    capacity := some 10
    parked_count := some 0
    reserved_count := some 0
    status := "available" }

def spotC8 : PSpot :=
  { parking_spot_id := 3
    parking_section_id := 1
    spot_number := "3"
    spot_type := "car"
    status := "available" }

def dbC8 : Db :=
  { users := [userC8]
    vehicles := [vehicleC8]
    areas := [areaC8]
    sections := [sectionC8]
    spots := [spotC8]
    reservations := []
    nextReservationId := 1
    nextUserId := 6
    nextVehicleId := 3 }

theorem token_round_trip_witness :
    ((book dbC8 5 2 3 7 "abc-123" 50).1 = .okSpot 1 "abc-123" ∧
      getBooking (book dbC8 5 2 3 7 "abc-123" 50).2 1 5
          (fun _ => JsParseKind.objectVal) =
        .found { reservationId := 1
                 bookingStatus := "reserved"
                 spotNumberOut := some "3"
                 qrCode := qrToDataURL (qrPayload "abc-123")
                 qrKeyOut := some "abc-123" }) ∧
    sanitizeQrKey (fun _ => JsParseKind.objectVal)
      (some "\x7b\"qr_key\":\"x\"\x7d") = none := by
  have h := token_round_trip_and_structured_rejected dbC8 5 2 3 7 "abc-123" 50
    (fun _ => JsParseKind.objectVal) vehicleC8 spotC8 sectionC8
    (by decide) (by decide) (by decide) (by decide) (by decide) (by decide)
    (by decide) (by decide) (by decide) (by decide) (by decide) (by decide)
    (by decide) (by decide) (by decide) (by decide) (by decide) (by decide)
    (by decide)
  exact ⟨h.1, h.2 (fun _ => JsParseKind.objectVal) "\x7b\"qr_key\":\"x\"\x7d"
    (by decide) (Or.inl (by decide)) (by decide)⟩

end TapPark
